import Mathlib

/-!
Shallow embedding of the MCP server core from this repository
(the complete Go program; the unfinished draft under cmd/mcp is noted
where a claim mentions it).

JSON-decoded dynamic values (Go `interface{}` after `json.Unmarshal`)
are modelled by `JsonValue`.  A missing key of a decoded object and an
explicit JSON null both decode to the Go nil interface, on which every
type assertion fails; both are modelled by `JsonValue.null`.
-/

set_option maxHeartbeats 1000000
set_option linter.unusedVariables false

/-- A JSON-decoded dynamic value (Go `interface{}` after `json.Unmarshal`).
Objects are association lists with the keys of the decoded Go map. -/
inductive JsonValue where
  | null : JsonValue
  | bool (b : Bool) : JsonValue
  | num (n : Int) : JsonValue
  | str (s : String) : JsonValue
  | arr (elems : List JsonValue) : JsonValue
  | obj (fields : List (String × JsonValue)) : JsonValue

/-- Go type assertion `v.(map[string]interface{})`: succeeds exactly on a
decoded JSON object, fails on everything else (including the nil interface). -/
def JsonValue.asObj : JsonValue → Option (List (String × JsonValue))
  | .obj fields => some fields
  | _ => none

/-- Go type assertion `v.(string)`. -/
def JsonValue.asStr : JsonValue → Option String
  | .str s => some s
  | _ => none

/-- Go map access `m[k]` on a decoded JSON object: the value stored at `k`,
or the nil interface (modelled as `JsonValue.null`) when `k` is absent. -/
def jsonGet (fields : List (String × JsonValue)) (k : String) : JsonValue :=
  match fields.lookup k with
  | some v => v
  | none => JsonValue.null

/-- `strings.HasPrefix(s, p)` from the Go standard library. -/
def goHasPrefixStr (s p : String) : Bool :=
  p.data.isPrefixOf s.data

/-- A registered tool (`Tool` struct in the source). -/
structure Tool where
  name : String
  description : String
  inputSchema : JsonValue

/-- A registered resource (`Resource` struct in the source). -/
structure Resource where
  uri : String
  name : String
  description : String
  mimeType : String

/-- The server state (`MCPServer` struct).  The Go maps
`tools map[string]Tool` and `resources map[string]Resource` are modelled
as association lists with unique keys; the list order carries no meaning,
since Go maps are unordered — handlers that iterate a map take the
iteration order as an explicit parameter (see `goMapValuesPerm`). -/
structure MCPServer where
  name : String
  version : String
  tools : List (String × Tool)
  resources : List (String × Resource)

/-- `NewMCPServer`: fresh server with empty registries. -/
def NewMCPServer (name version : String) : MCPServer :=
  { name := name, version := version, tools := [], resources := [] }

/-- Go map assignment `m[k] = v`: replaces the binding of `k` if present,
otherwise adds it. -/
def insertKey {α : Type} : List (String × α) → String → α → List (String × α)
  | [], k, v => [(k, v)]
  | (k', v') :: rest, k, v =>
    if k' = k then (k, v) :: rest else (k', v') :: insertKey rest k v

/-- `RegisterTool`: `s.tools[tool.Name] = tool`. -/
def RegisterTool (s : MCPServer) (t : Tool) : MCPServer :=
  { s with tools := insertKey s.tools t.name t }

/-- `RegisterResource`: `s.resources[resource.URI] = resource`. -/
def RegisterResource (s : MCPServer) (r : Resource) : MCPServer :=
  { s with resources := insertKey s.resources r.uri r }

/-- `JSONRPCRequest` struct: jsonrpc, id, method, params. -/
structure JSONRPCRequest where
  jsonrpc : String
  id : JsonValue
  method : String
  params : JsonValue

/-- `JSONRPCError` struct: code, message, optional data. -/
structure JSONRPCError where
  code : Int
  message : String
  data : Option JsonValue

/-- `JSONRPCResponse` struct.  `Result interface{}` and
`Error *JSONRPCError` both carry `omitempty`: `none` models the Go nil
(omitted on the wire). -/
structure JSONRPCResponse where
  jsonrpc : String
  id : JsonValue
  result : Option JsonValue
  error : Option JSONRPCError

/-- A response literal `{JSONRPC: "2.0", ID: id, Error: &{code, message}}`. -/
def mkError (id : JsonValue) (code : Int) (message : String) : JSONRPCResponse :=
  { jsonrpc := "2.0", id := id, result := none,
    error := some { code := code, message := message, data := none } }

/-- A response literal `{JSONRPC: "2.0", ID: id, Result: r}`. -/
def mkResult (id : JsonValue) (r : JsonValue) : JSONRPCResponse :=
  { jsonrpc := "2.0", id := id, result := some r, error := none }

/-- JSON marshalling of a `Tool` per its struct tags. -/
def Tool.toJson (t : Tool) : JsonValue :=
  JsonValue.obj
    [("name", JsonValue.str t.name),
     ("description", JsonValue.str t.description),
     ("inputSchema", t.inputSchema)]

/-- JSON marshalling of a `Resource` per its struct tags. -/
def Resource.toJson (r : Resource) : JsonValue :=
  JsonValue.obj
    [("uri", JsonValue.str r.uri),
     ("name", JsonValue.str r.name),
     ("description", JsonValue.str r.description),
     ("mimeType", JsonValue.str r.mimeType)]

/-- `order` is one of the value sequences Go's `for _, v := range m` may
produce on the map `m`: every stored value exactly once, in an order the
language leaves unspecified (any permutation). -/
def goMapValuesPerm {α : Type} (m : List (String × α)) (order : List α) : Prop :=
  List.Perm order (m.map Prod.snd)

/-- `executeTool`: the tool executor.  The only registered tool is
`echo`; its argument checks are Go type assertions. -/
def executeTool (toolName : String) (arguments : JsonValue) : JsonValue :=
  if toolName = "echo" then
    match arguments.asObj with
    | none => JsonValue.obj [("error", JsonValue.str ("Invalid arguments"))]
    | some args =>
      match (jsonGet args ("message")).asStr with
      | none => JsonValue.obj [("error", JsonValue.str ("Message is required"))]
      | some message =>
        JsonValue.obj
          [("content", JsonValue.arr
            [JsonValue.obj
              [("type", JsonValue.str ("text")),
               ("text", JsonValue.str ("Echo: " ++ message))]])]
  else
    JsonValue.obj [("error", JsonValue.str ("Unknown tool"))]

/-- `readResource`: the resource reader, keyed on the URI's scheme by
literal prefix match; returns placeholder content. -/
def readResource (uri : String) : String :=
  if goHasPrefixStr uri ("file://") then ("Content of " ++ uri)
  else if goHasPrefixStr uri ("https://") then ("Web content of " ++ uri)
  else ("Unknown resource type")

/-- `handleInitialize`: the capability advertisement. -/
def handleInitialize (s : MCPServer) (req : JSONRPCRequest) : JSONRPCResponse :=
  mkResult req.id (JsonValue.obj
    [("protocolVersion", JsonValue.str ("2024-11-05")),
     ("capabilities", JsonValue.obj
       [("tools", JsonValue.obj [("listChanged", JsonValue.bool true)]),
        ("resources", JsonValue.obj
          [("subscribe", JsonValue.bool true),
           ("listChanged", JsonValue.bool true)])]),
     ("serverInfo", JsonValue.obj
       [("name", JsonValue.str s.name),
        ("version", JsonValue.str s.version)])])

/-- `handleToolsList`: appends the tools in the map iteration order the
runtime happened to choose (passed as `toolsOrder`). -/
def handleToolsList (toolsOrder : List Tool) (req : JSONRPCRequest) : JSONRPCResponse :=
  mkResult req.id (JsonValue.obj
    [("tools", JsonValue.arr (toolsOrder.map Tool.toJson))])

/-- `handleResourcesList`: same shape as `handleToolsList`. -/
def handleResourcesList (resourcesOrder : List Resource) (req : JSONRPCRequest) : JSONRPCResponse :=
  mkResult req.id (JsonValue.obj
    [("resources", JsonValue.arr (resourcesOrder.map Resource.toJson))])

/-- `handleToolsCall`: params must assert to an object with a string
`name`; unknown names fail with -32601; otherwise the executor's payload
is returned as the success result. -/
def handleToolsCall (s : MCPServer) (req : JSONRPCRequest) : JSONRPCResponse :=
  match req.params.asObj with
  | none => mkError req.id (-32602) ("Invalid parameters")
  | some params =>
    match (jsonGet params ("name")).asStr with
    | none => mkError req.id (-32602) ("Tool name is required")
    | some toolName =>
      match s.tools.lookup toolName with
      | none => mkError req.id (-32601) ("Tool not found")
      | some _ => mkResult req.id (executeTool toolName (jsonGet params ("arguments")))

/-- `handleResourcesRead`: params must assert to an object with a string
`uri`; the scheme allow-list is a literal prefix check. -/
def handleResourcesRead (s : MCPServer) (req : JSONRPCRequest) : JSONRPCResponse :=
  match req.params.asObj with
  | none => mkError req.id (-32602) ("Invalid parameters")
  | some params =>
    match (jsonGet params ("uri")).asStr with
    | none => mkError req.id (-32602) ("URI is required")
    | some uri =>
      if !goHasPrefixStr uri ("file://") && !goHasPrefixStr uri ("https://") then
        mkError req.id (-32602) ("Invalid URI scheme")
      else
        mkResult req.id (JsonValue.obj
          [("contents", JsonValue.arr
            [JsonValue.obj
              [("uri", JsonValue.str uri),
               ("mimeType", JsonValue.str ("text/plain")),
               ("text", JsonValue.str (readResource uri))]])])

/-- `HandleRequest`: the dispatcher.  Version gate first, then the static
method switch.  `toolsOrder` and `resourcesOrder` are the map iteration
orders the Go runtime would choose if a list handler runs. -/
def HandleRequest (toolsOrder : List Tool) (resourcesOrder : List Resource)
    (s : MCPServer) (req : JSONRPCRequest) : JSONRPCResponse :=
  if req.jsonrpc ≠ "2.0" then
    mkError req.id (-32600) ("Invalid JSON-RPC version")
  else
    match req.method with
    | "initialize" => handleInitialize s req
    | "tools/list" => handleToolsList toolsOrder req
    | "tools/call" => handleToolsCall s req
    | "resources/list" => handleResourcesList resourcesOrder req
    | "resources/read" => handleResourcesRead s req
    | _ => mkError req.id (-32601) ("Method not found")

/-- The `echo` tool exactly as registered in `main`. -/
def echoTool : Tool :=
  { name := "echo",
    description := "Echo back the provided message",
    inputSchema := JsonValue.obj
      [("type", JsonValue.str ("object")),
       ("properties", JsonValue.obj
         [("message", JsonValue.obj
           [("type", JsonValue.str ("string")),
            ("description", JsonValue.str ("Message to echo back"))])]),
       ("required", JsonValue.arr [JsonValue.str ("message")])] }

/-- The example resource exactly as registered in `main`. -/
def exampleResource : Resource :=
  { uri := "file:///example.txt",
    name := "Example File",
    description := "An example text file",
    mimeType := "text/plain" }

/-- The server `main` builds before starting the transport loop. -/
def mainServer : MCPServer :=
  RegisterResource
    (RegisterTool (NewMCPServer ("CustomMCPServer") ("1.0.0")) echoTool)
    exampleResource

/-- A response carries exactly one of the two outcome branches:
a result with no error, or an error with no result. -/
def exactlyOneOutcome (resp : JSONRPCResponse) : Prop :=
  (resp.result.isSome = true ∧ resp.error = none) ∨
  (resp.result = none ∧ resp.error.isSome = true)

/-- Observer used to separate two concrete responses: the `name` field of
the first tool listed in a `tools/list` result, if the response has that
shape. -/
def firstListedToolName (resp : JSONRPCResponse) : Option String :=
  match resp.result with
  | some (JsonValue.obj [(_, JsonValue.arr (JsonValue.obj ((_, JsonValue.str n) :: _) :: _))]) =>
    some n
  | _ => none

/-- Fixture: an `initialize` request. -/
def initReq : JSONRPCRequest :=
  { jsonrpc := "2.0", id := JsonValue.num 1, method := "initialize",
    params := JsonValue.null }

/-- Fixture: a `tools/call` of `echo` with empty-object arguments
(`arguments={}`, `message` missing). -/
def echoEmptyArgsReq : JSONRPCRequest :=
  { jsonrpc := "2.0", id := JsonValue.num 2, method := "tools/call",
    params := JsonValue.obj
      [("name", JsonValue.str ("echo")), ("arguments", JsonValue.obj [])] }

/-- Fixture: a `tools/call` of `echo` with `arguments={message:"hi"}`. -/
def echoHiReq : JSONRPCRequest :=
  { jsonrpc := "2.0", id := JsonValue.num 3, method := "tools/call",
    params := JsonValue.obj
      [("name", JsonValue.str ("echo")),
       ("arguments", JsonValue.obj [("message", JsonValue.str ("hi"))])] }

/-- Fixture: a `tools/call` of an unregistered tool name. -/
def unknownToolReq : JSONRPCRequest :=
  { jsonrpc := "2.0", id := JsonValue.num 5, method := "tools/call",
    params := JsonValue.obj [("name", JsonValue.str ("nosuch"))] }

/-- Fixture: a `resources/read` with a disallowed scheme. -/
def ftpReadReq : JSONRPCRequest :=
  { jsonrpc := "2.0", id := JsonValue.num 6, method := "resources/read",
    params := JsonValue.obj [("uri", JsonValue.str ("ftp://x"))] }

/-- Fixture: a `resources/read` of `file:///a.txt`. -/
def fileReadReq : JSONRPCRequest :=
  { jsonrpc := "2.0", id := JsonValue.num 7, method := "resources/read",
    params := JsonValue.obj [("uri", JsonValue.str ("file:///a.txt"))] }

/-- Fixture: a `resources/read` of an `https://` URI. -/
def httpsReadReq : JSONRPCRequest :=
  { jsonrpc := "2.0", id := JsonValue.num 8, method := "resources/read",
    params := JsonValue.obj [("uri", JsonValue.str ("https://example.com"))] }

/-- Fixture: a request carrying JSON-RPC version "1.0". -/
def badVersionReq : JSONRPCRequest :=
  { jsonrpc := "1.0", id := JsonValue.num 9, method := "initialize",
    params := JsonValue.null }

/-- Fixture: a `tools/list` request. -/
def listReq : JSONRPCRequest :=
  { jsonrpc := "2.0", id := JsonValue.num 10, method := "tools/list",
    params := JsonValue.null }

/-- Fixture tool named "a" for the ordering analysis. -/
def toolA : Tool :=
  { name := "a", description := "first", inputSchema := JsonValue.null }

/-- Fixture tool named "b" for the ordering analysis. -/
def toolB : Tool :=
  { name := "b", description := "second", inputSchema := JsonValue.null }

/-- Fixture server with the two tools `a` and `b` registered. -/
def twoToolServer : MCPServer :=
  RegisterTool (RegisterTool (NewMCPServer ("s") ("v")) toolA) toolB

/-- Every dispatcher output is literally one of the two response
constructions of the source, always built on the request's own id. -/
theorem HandleRequest_shape (toolsOrder : List Tool) (resourcesOrder : List Resource)
    (s : MCPServer) (req : JSONRPCRequest) :
    (∃ c m, HandleRequest toolsOrder resourcesOrder s req = mkError req.id c m) ∨
    (∃ r, HandleRequest toolsOrder resourcesOrder s req = mkResult req.id r) := by
  unfold HandleRequest handleInitialize handleToolsList handleToolsCall
    handleResourcesList handleResourcesRead
  repeat' split
  all_goals first
  | (left; exact ⟨_, _, rfl⟩)
  | (right; exact ⟨_, rfl⟩)

/-- C9: every dispatcher response echoes the request's id unmodified and
carries exactly one of the two outcome branches (a result or an error,
never both, never neither). -/
theorem C9_id_echo_and_exactly_one_outcome (toolsOrder : List Tool)
    (resourcesOrder : List Resource) (s : MCPServer) (req : JSONRPCRequest) :
    (HandleRequest toolsOrder resourcesOrder s req).id = req.id ∧
    exactlyOneOutcome (HandleRequest toolsOrder resourcesOrder s req) := by
  rcases HandleRequest_shape toolsOrder resourcesOrder s req with ⟨c, m, h⟩ | ⟨r, h⟩ <;>
    rw [h] <;> simp [mkError, mkResult, exactlyOneOutcome]

/-- C4 counterexample: on a request with jsonrpc "1.0" the dispatcher does
return a Failure with code -32600, but its message is
"Invalid JSON-RPC version", not the "Invalid Request" the claim states. -/
theorem C4_counterexample_message_differs :
    (HandleRequest [] [] mainServer badVersionReq).error =
      some { code := -32600, message := "Invalid JSON-RPC version", data := none } ∧
    (HandleRequest [] [] mainServer badVersionReq).error ≠
      some { code := -32600, message := "Invalid Request", data := none } := by
  constructor
  · rfl
  · intro h
    have h2 := congrArg (fun e => (Option.map JSONRPCError.message e).getD ("")) h
    exact absurd h2 (by decide)

/-- C4 (amended): for every request whose jsonrpc field is not the literal
"2.0", the dispatcher returns, without routing to any method handler, a
Failure with code -32600 and message "Invalid JSON-RPC version". -/
theorem C4_bad_version_rejected (toolsOrder : List Tool)
    (resourcesOrder : List Resource) (s : MCPServer) (req : JSONRPCRequest)
    (h : req.jsonrpc ≠ "2.0") :
    HandleRequest toolsOrder resourcesOrder s req =
      mkError req.id (-32600) ("Invalid JSON-RPC version") := by
  unfold HandleRequest
  simp [h]

/-- C4 witness: the amended claim at the concrete "1.0" request. -/
theorem C4_bad_version_rejected_witness :
    HandleRequest [] [] mainServer badVersionReq =
      mkError badVersionReq.id (-32600) ("Invalid JSON-RPC version") :=
  C4_bad_version_rejected [] [] mainServer badVersionReq (by decide)

/-- C5: `initialize` returns exactly the capability advertisement
`{protocolVersion: "2024-11-05", capabilities: {tools: {listChanged: true},
resources: {subscribe: true, listChanged: true}}, serverInfo: {name, version}}`,
and the handler's output depends only on the server's name and version
(any two servers with the same identity give identical results on every
request); the handler reads no other state and mutates nothing. -/
theorem C5_init_advertisement_pure (toolsOrder : List Tool)
    (resourcesOrder : List Resource) (s : MCPServer) (req : JSONRPCRequest)
    (h2 : req.jsonrpc = "2.0") (hm : req.method = "initialize") :
    HandleRequest toolsOrder resourcesOrder s req =
      mkResult req.id (JsonValue.obj
        [("protocolVersion", JsonValue.str ("2024-11-05")),
         ("capabilities", JsonValue.obj
           [("tools", JsonValue.obj [("listChanged", JsonValue.bool true)]),
            ("resources", JsonValue.obj
              [("subscribe", JsonValue.bool true),
               ("listChanged", JsonValue.bool true)])]),
         ("serverInfo", JsonValue.obj
           [("name", JsonValue.str s.name),
            ("version", JsonValue.str s.version)])]) ∧
    (∀ (s2 : MCPServer) (req2 : JSONRPCRequest),
      s2.name = s.name → s2.version = s.version →
      handleInitialize s2 req2 = handleInitialize s req2) := by
  constructor
  · unfold HandleRequest handleInitialize
    simp [h2, hm]
  · intro s2 req2 hn hv
    unfold handleInitialize
    rw [hn, hv]

/-- C5 witness: the advertisement of the concrete server built in `main`. -/
theorem C5_init_advertisement_witness :
    HandleRequest [] [] mainServer initReq =
      mkResult initReq.id (JsonValue.obj
        [("protocolVersion", JsonValue.str ("2024-11-05")),
         ("capabilities", JsonValue.obj
           [("tools", JsonValue.obj [("listChanged", JsonValue.bool true)]),
            ("resources", JsonValue.obj
              [("subscribe", JsonValue.bool true),
               ("listChanged", JsonValue.bool true)])]),
         ("serverInfo", JsonValue.obj
           [("name", JsonValue.str ("CustomMCPServer")),
            ("version", JsonValue.str ("1.0.0"))])]) :=
  (C5_init_advertisement_pure [] [] mainServer initReq rfl rfl).1

/-- C6: the `echo` executor returns `{content: [{type: "text",
text: "Echo: " + message}]}` when the arguments carry a string `message`,
and an embedded `{error: ...}` payload when the arguments are not an
object or `message` is missing or not a string. -/
theorem C6_echo_tool_contract (args : JsonValue) :
    (∀ (fields : List (String × JsonValue)) (m : String),
      args.asObj = some fields →
      (jsonGet fields ("message")).asStr = some m →
      executeTool ("echo") args = JsonValue.obj
        [("content", JsonValue.arr
          [JsonValue.obj
            [("type", JsonValue.str ("text")),
             ("text", JsonValue.str ("Echo: " ++ m))]])]) ∧
    (args.asObj = none →
      executeTool ("echo") args =
        JsonValue.obj [("error", JsonValue.str ("Invalid arguments"))]) ∧
    (∀ (fields : List (String × JsonValue)),
      args.asObj = some fields →
      (jsonGet fields ("message")).asStr = none →
      executeTool ("echo") args =
        JsonValue.obj [("error", JsonValue.str ("Message is required"))]) := by
  refine ⟨?_, ?_, ?_⟩
  · intro fields m hobj hmsg
    unfold executeTool
    simp [hobj, hmsg]
  · intro hobj
    unfold executeTool
    simp [hobj]
  · intro fields hobj hmsg
    unfold executeTool
    simp [hobj, hmsg]

/-- C6 witness: `message:"hi"` echoes to exactly "Echo: hi". -/
theorem C6_echo_tool_witness :
    executeTool ("echo") (JsonValue.obj [("message", JsonValue.str ("hi"))]) =
      JsonValue.obj
        [("content", JsonValue.arr
          [JsonValue.obj
            [("type", JsonValue.str ("text")),
             ("text", JsonValue.str ("Echo: hi"))]])] :=
  (C6_echo_tool_contract (JsonValue.obj [("message", JsonValue.str ("hi"))])).1
    _ ("hi") rfl rfl

/-- C7: a `resources/read` whose string uri starts with neither "file://"
nor "https://" fails with -32602 "Invalid URI scheme". -/
theorem C7_invalid_scheme_rejected (toolsOrder : List Tool)
    (resourcesOrder : List Resource) (s : MCPServer) (req : JSONRPCRequest)
    (params : List (String × JsonValue)) (uri : String)
    (h2 : req.jsonrpc = "2.0") (hm : req.method = "resources/read")
    (hp : req.params.asObj = some params)
    (hu : (jsonGet params ("uri")).asStr = some uri)
    (hf : goHasPrefixStr uri ("file://") = false)
    (hh : goHasPrefixStr uri ("https://") = false) :
    HandleRequest toolsOrder resourcesOrder s req =
      mkError req.id (-32602) ("Invalid URI scheme") := by
  unfold HandleRequest handleResourcesRead
  simp [h2, hm, hp, hu, hf, hh]

/-- C7 witness: `uri="ftp://x"` is rejected with the scheme error. -/
theorem C7_invalid_scheme_witness :
    HandleRequest [] [] mainServer ftpReadReq =
      mkError ftpReadReq.id (-32602) ("Invalid URI scheme") :=
  C7_invalid_scheme_rejected [] [] mainServer ftpReadReq _ _
    rfl rfl rfl rfl (by decide) (by decide)

/-- The resource reader never returns empty content on an allowed scheme. -/
theorem readResource_ne_empty (uri : String)
    (hpre : goHasPrefixStr uri ("file://") = true ∨
            goHasPrefixStr uri ("https://") = true) :
    readResource uri ≠ ("") := by
  have hlen : 0 < (readResource uri).length := by
    unfold readResource
    by_cases hf : goHasPrefixStr uri ("file://") = true
    · simp only [hf, if_true, String.length_append]
      have h11 : ("Content of " : String).length = 11 := by decide
      omega
    · have hf' : goHasPrefixStr uri ("file://") = false := by
        simpa using hf
      rcases hpre with h | h
      · exact absurd h hf
      · simp only [hf', Bool.false_eq_true, if_false, h, if_true,
          String.length_append]
        have h15 : ("Web content of " : String).length = 15 := by decide
        omega
  intro hc
  rw [hc] at hlen
  exact absurd hlen (by decide)

/-- C8: a `resources/read` whose string uri starts with "file://" or
"https://" succeeds with `{contents: [{uri, mimeType: "text/plain",
text}]}`: exactly one entry, the request's own uri echoed, and non-empty
resolved text. -/
theorem C8_read_allowed_scheme_success (toolsOrder : List Tool)
    (resourcesOrder : List Resource) (s : MCPServer) (req : JSONRPCRequest)
    (params : List (String × JsonValue)) (uri : String)
    (h2 : req.jsonrpc = "2.0") (hm : req.method = "resources/read")
    (hp : req.params.asObj = some params)
    (hu : (jsonGet params ("uri")).asStr = some uri)
    (hpre : goHasPrefixStr uri ("file://") = true ∨
            goHasPrefixStr uri ("https://") = true) :
    HandleRequest toolsOrder resourcesOrder s req =
      mkResult req.id (JsonValue.obj
        [("contents", JsonValue.arr
          [JsonValue.obj
            [("uri", JsonValue.str uri),
             ("mimeType", JsonValue.str ("text/plain")),
             ("text", JsonValue.str (readResource uri))]])]) ∧
    readResource uri ≠ ("") := by
  refine ⟨?_, readResource_ne_empty uri hpre⟩
  unfold HandleRequest handleResourcesRead
  rcases hpre with h | h <;> simp [h2, hm, hp, hu, h]

/-- C8 witness: reading `file:///a.txt` echoes the uri and yields the
non-empty placeholder text. -/
theorem C8_read_allowed_scheme_witness :
    HandleRequest [] [] mainServer fileReadReq =
      mkResult fileReadReq.id (JsonValue.obj
        [("contents", JsonValue.arr
          [JsonValue.obj
            [("uri", JsonValue.str ("file:///a.txt")),
             ("mimeType", JsonValue.str ("text/plain")),
             ("text", JsonValue.str ("Content of file:///a.txt"))]])]) ∧
    readResource ("file:///a.txt") ≠ ("") :=
  C8_read_allowed_scheme_success [] [] mainServer fileReadReq _ _
    rfl rfl rfl rfl (Or.inl (by decide))

/-- C1: a `tools/call` of a registered tool always yields a success
Result whose payload is the executor's output — never a JSON-RPC-level
Failure, whatever the arguments are; tool-level failures are embedded in
the payload (see the witness, which calls `echo` with `arguments={}`). -/
theorem C1_registered_tool_never_failure (toolsOrder : List Tool)
    (resourcesOrder : List Resource) (s : MCPServer) (req : JSONRPCRequest)
    (params : List (String × JsonValue)) (toolName : String) (t : Tool)
    (h2 : req.jsonrpc = "2.0") (hm : req.method = "tools/call")
    (hp : req.params.asObj = some params)
    (hn : (jsonGet params ("name")).asStr = some toolName)
    (ht : s.tools.lookup toolName = some t) :
    (HandleRequest toolsOrder resourcesOrder s req).error = none ∧
    (HandleRequest toolsOrder resourcesOrder s req).result =
      some (executeTool toolName (jsonGet params ("arguments"))) := by
  unfold HandleRequest handleToolsCall
  simp [h2, hm, hp, hn, ht, mkResult]

/-- C1 witness: calling the registered `echo` with invalid arguments
(`arguments={}`) produces a success outcome whose payload embeds the
tool-level error field. -/
theorem C1_registered_tool_witness :
    (HandleRequest [] [] mainServer echoEmptyArgsReq).error = none ∧
    (HandleRequest [] [] mainServer echoEmptyArgsReq).result =
      some (JsonValue.obj [("error", JsonValue.str ("Message is required"))]) :=
  C1_registered_tool_never_failure [] [] mainServer echoEmptyArgsReq
    _ _ _ rfl rfl rfl rfl rfl

/-- C2: a `tools/call` whose string `name` is not a registry key fails
with the reserved code -32601 and message "Tool not found" — the same
-32601 the dispatcher uses for an unknown method; no ad-hoc code. -/
theorem C2_unknown_tool_reserved_code (toolsOrder : List Tool)
    (resourcesOrder : List Resource) (s : MCPServer) (req : JSONRPCRequest)
    (params : List (String × JsonValue)) (toolName : String)
    (h2 : req.jsonrpc = "2.0") (hm : req.method = "tools/call")
    (hp : req.params.asObj = some params)
    (hn : (jsonGet params ("name")).asStr = some toolName)
    (ht : s.tools.lookup toolName = none) :
    HandleRequest toolsOrder resourcesOrder s req =
      mkError req.id (-32601) ("Tool not found") ∧
    (∀ req2 : JSONRPCRequest, req2.jsonrpc = "2.0" →
      req2.method ∉ (["initialize", "tools/list", "tools/call",
        "resources/list", "resources/read"] : List String) →
      HandleRequest toolsOrder resourcesOrder s req2 =
        mkError req2.id (-32601) ("Method not found")) := by
  constructor
  · unfold HandleRequest handleToolsCall
    simp [h2, hm, hp, hn, ht]
  · intro req2 h2' hnot
    unfold HandleRequest
    rw [if_neg (by simp [h2'])]
    split
    all_goals first
    | rfl
    | (exfalso; apply hnot; rename_i heq; rw [heq]; decide)

/-- C2 witness: calling the unregistered tool "nosuch" on the `main`
server fails with -32601 "Tool not found". -/
theorem C2_unknown_tool_witness :
    HandleRequest [] [] mainServer unknownToolReq =
      mkError unknownToolReq.id (-32601) ("Tool not found") :=
  (C2_unknown_tool_reserved_code [] [] mainServer unknownToolReq _ _
    rfl rfl rfl rfl rfl).1

/-- C10: `resources/read` never consults the resource registry: the
handler's output is identical for any two server states, and on any
server (the empty registry included) an allowed-prefix uri succeeds with
content computed from the uri alone. -/
theorem C10_read_ignores_registry :
    (∀ (s1 s2 : MCPServer) (req : JSONRPCRequest),
      handleResourcesRead s1 req = handleResourcesRead s2 req) ∧
    (∀ (toolsOrder : List Tool) (resourcesOrder : List Resource)
       (s : MCPServer) (req : JSONRPCRequest)
       (params : List (String × JsonValue)) (uri : String),
      req.jsonrpc = "2.0" → req.method = "resources/read" →
      req.params.asObj = some params →
      (jsonGet params ("uri")).asStr = some uri →
      (goHasPrefixStr uri ("file://") = true ∨
       goHasPrefixStr uri ("https://") = true) →
      (HandleRequest toolsOrder resourcesOrder s req).error = none ∧
      (HandleRequest toolsOrder resourcesOrder s req).result =
        some (JsonValue.obj
          [("contents", JsonValue.arr
            [JsonValue.obj
              [("uri", JsonValue.str uri),
               ("mimeType", JsonValue.str ("text/plain")),
               ("text", JsonValue.str (readResource uri))]])])) := by
  constructor
  · intro s1 s2 req
    rfl
  · intro toolsOrder resourcesOrder s req params uri h2 hm hp hu hpre
    unfold HandleRequest handleResourcesRead
    rcases hpre with h | h <;> simp [h2, hm, hp, hu, h, mkResult]

/-- C10 witness: the handler gives the same answer on the `main` server
and on a fresh empty-registry server, and succeeds on the latter for an
`https://` uri. -/
theorem C10_read_ignores_registry_witness :
    handleResourcesRead mainServer httpsReadReq =
      handleResourcesRead (NewMCPServer ("x") ("y")) httpsReadReq ∧
    (HandleRequest [] [] (NewMCPServer ("x") ("y")) httpsReadReq).error = none :=
  ⟨C10_read_ignores_registry.1 mainServer (NewMCPServer ("x") ("y")) httpsReadReq,
   (C10_read_ignores_registry.2 [] [] (NewMCPServer ("x") ("y")) httpsReadReq
      _ _ rfl rfl rfl rfl (Or.inr (by decide))).1⟩

/-- C3 (code defect): the list handlers iterate a Go map, whose range
order is unspecified; for the registry holding tools `a` and `b`, both
`[a, b]` and `[b, a]` are iteration orders the runtime may choose, and
the two choices yield different `tools/list` responses — repeated calls
on the same registry are therefore not guaranteed the same order. -/
theorem C3_list_order_nondeterministic :
    goMapValuesPerm twoToolServer.tools [toolA, toolB] ∧
    goMapValuesPerm twoToolServer.tools [toolB, toolA] ∧
    HandleRequest [toolA, toolB] [] twoToolServer listReq ≠
      HandleRequest [toolB, toolA] [] twoToolServer listReq := by
  refine ⟨?_, ?_, ?_⟩
  · exact List.Perm.refl _
  · exact List.Perm.swap toolA toolB []
  · intro h
    exact absurd (congrArg firstListedToolName h) (by decide)
